import Mathlib

/-!
# Verification of the nanobot quiz/routing core

Shallow embedding of the message-routing and quiz-answer engine of the
nanobot repository:

* `src/bridge/src/kotaete.ts` — the `Kotaete` quiz engine
  (`startQuiz`, `endQuiz`, `checkAnswer`, `levenshteinDistance`,
  `isCloseMatch`) and the answer classification it implements;
* the WhatsApp client wrapper — identity resolution
  (`resolveAndSanitizePhoneNumber`) and mention filtering
  (`isUserMentioned`).

Stateful methods are embedded as pure functions from the engine state to
the new state together with a trace of the observable side effects
(messages sent, reactions sent, lifecycle notifications fired).
JavaScript strings are modelled as Lean `String`s; `toLowerCase`/`trim`
are modelled on the ASCII fragment, and `Math.floor(L * 0.1)` on a
natural `L` is modelled as `L / 10` (natural floor division).
-/

set_option autoImplicit false

namespace Nanobot

/-! ## String primitives

Models of the JavaScript string operations the source uses. -/

/-- Model of `s.toLowerCase().trim()`: lower-case every character, then
drop whitespace from both ends. -/
def normalize (s : String) : String :=
  ⟨(((s.data.map Char.toLower).dropWhile Char.isWhitespace).reverse.dropWhile
      Char.isWhitespace).reverse⟩

/-- `containsSub s sub`: does `s` contain `sub` as a contiguous substring?
Model of JavaScript `s.includes(sub)`. -/
def containsSub : List Char → List Char → Bool
  | [], sub => sub.isEmpty
  | c :: rest, sub => sub.isPrefixOf (c :: rest) || containsSub rest sub

/-- String-level wrapper for `containsSub`: model of `s.includes(sub)`. -/
def strIncludes (s sub : String) : Bool :=
  containsSub s.data sub.data

/-! ## Levenshtein distance (kotaete.ts `levenshteinDistance`)

The source fills a `(m+1) × (n+1)` table row by row:
`dp[i][0] = i`, `dp[0][j] = j`, and
`dp[i][j] = dp[i-1][j-1]` when `str1[i-1] == str2[j-1]`, otherwise
`1 + min(dp[i-1][j], dp[i][j-1], dp[i-1][j-1])`, returning `dp[m][n]`.
`dpRow s1 s2 i` is row `i` of that table as a function of the column,
built from the previous row by `dpNext` exactly as the inner loop does. -/

/-- One step of the inner loop of `levenshteinDistance`: given row `i`
(`prev`), compute row `i+1`. Cell `j+1` compares `str1[i]` with
`str2[j]` and otherwise takes
`1 + min(deletion, min(insertion, substitution))`, in the source's
argument order. -/
def dpNext (s1 s2 : List Char) (i : Nat) (prev : Nat → Nat) : Nat → Nat
  | 0 => i + 1
  | j + 1 =>
    if s1.getD i default = s2.getD j default then
      prev j
    else
      1 + min (prev (j + 1)) (min (dpNext s1 s2 i prev j) (prev j))

/-- Row `i` of the dynamic-programming table of `levenshteinDistance`. -/
def dpRow (s1 s2 : List Char) : Nat → Nat → Nat
  | 0 => fun j => j
  | i + 1 => dpNext s1 s2 i (dpRow s1 s2 i)

/-- `levenshteinDistance str1 str2` is `dp[m][n]`: kotaete.ts
`levenshteinDistance`. -/
def levenshteinDistance (str1 str2 : String) : Nat :=
  dpRow str1.data str2.data str1.data.length str2.data.length

/-! ## Close-match heuristic (kotaete.ts `isCloseMatch`) -/

/-- kotaete.ts `isCloseMatch(answer1, answer2)`: distance ≤ 2 for
candidates of length ≤ 10, else distance ≤ max(3, floor(length·0.1)),
where the length is always `answer1`'s (the candidate's). -/
def isCloseMatch (answer1 answer2 : String) : Bool :=
  let distance := levenshteinDistance answer1 answer2
  if answer1.data.length ≤ 10 && distance ≤ 2 then
    true
  else if 10 < answer1.data.length then
    distance ≤ max 3 (answer1.data.length / 10)
  else
    false

/-! ## Answer classification

`checkAnswer` (kotaete.ts lines 104–124) evaluates, on the normalized
candidate and the (already normalized) correct answer, in order: exact
equality, mutual containment, `isCloseMatch`, otherwise nothing.
`classify` names the four outcomes of that branch chain. -/

/-- Outcome of the answer-matching branch chain of `checkAnswer`. -/
inductive MatchResult where
  | exact
  | partialMatch
  | close
  | noMatch
  deriving DecidableEq, Repr

/-- The classification implemented by the branch order of `checkAnswer`
together with `isCloseMatch`: normalize both strings, then first match
wins among exact / partial (mutual containment) / close / none. -/
def classify (candidate correct : String) : MatchResult :=
  let c := normalize candidate
  let k := normalize correct
  if c = k then .exact
  else if strIncludes c k || strIncludes k c then .partialMatch
  else if isCloseMatch c k then .close
  else .noMatch

/-! ## Quiz engine state machine (kotaete.ts `Kotaete`)

The class field `currentQuiz : QuizState | null` is the engine state,
embedded as `Option QuizSession`. Each method becomes a pure function
returning the new state plus the ordered list of observable effects:
`sendMessage`/`sendReact` calls that completed, and the `onQuizStart` /
`onQuizEnd` callbacks fired. `startQuiz` additionally takes
`sendErr : Option String`: `none` means the transport `sendMessage`
succeeds, `some e` means it throws `e` (the capability is fallible). -/

/-- kotaete.ts `QuizState`: the active quiz session record. -/
structure QuizSession where
  active : Bool
  question : String
  correctAnswer : String
  startTime : Nat
  chatId : String
  messageId : Option String
  deriving DecidableEq, Repr

/-- The `messageKey` argument of `sendReact`/`checkAnswer`. -/
structure MessageKey where
  id : String
  remoteJid : String
  deriving DecidableEq, Repr

/-- The `reason` argument of `endQuiz` / `onQuizEnd`. -/
inductive EndReason where
  | answered
  | timeout
  | cancelled
  deriving DecidableEq, Repr

/-- Observable side effects of the engine, in execution order. -/
inductive Effect where
  | sendMessage (recipient text : String)
  | sendReact (recipient emoji : String) (key : MessageKey)
  | quizStart (quiz : QuizSession)
  | quizEnd (reason : EndReason)
  deriving DecidableEq, Repr

/-- The question message built by `startQuiz`. -/
def quizPrompt (question : String) : String :=
  "📝 Quiz: " ++ question ++ "\n\nReply with your answer!"

/-- Result of `startQuiz`: new engine state, effect trace, and the
propagated error (`none` on success). -/
structure StartResult where
  state : Option QuizSession
  effects : List Effect
  err : Option String
  deriving DecidableEq, Repr

/-- kotaete.ts `startQuiz(chatId, question, correctAnswer,
replyToMessageId?)`. Throws if a quiz is already active; otherwise sends
the question (a transport failure propagates before any state change),
installs the session with the answer lower-cased and trimmed, and fires
`onQuizStart`. `now` stands for `Date.now()`. -/
def startQuiz (st : Option QuizSession) (sendErr : Option String)
    (chatId question correctAnswer : String) (replyToMessageId : Option String)
    (now : Nat) : StartResult :=
  match st with
  | some q => ⟨some q, [], some "A quiz is already active"⟩
  | none =>
    match sendErr with
    | some e => ⟨none, [], some e⟩
    | none =>
      let quiz : QuizSession :=
        ⟨true, question, normalize correctAnswer, now, chatId, replyToMessageId⟩
      ⟨some quiz, [.sendMessage chatId (quizPrompt question), .quizStart quiz], none⟩

/-- kotaete.ts `endQuiz(reason)`: returns immediately when no quiz is
active, else clears the session and fires `onQuizEnd(reason)`. -/
def endQuiz (st : Option QuizSession) (reason : EndReason) :
    Option QuizSession × List Effect :=
  match st with
  | none => (none, [])
  | some _ => (none, [.quizEnd reason])

/-- kotaete.ts `checkAnswer(chatId, messageContent, messageKey)`:
ignores the message unless a quiz is active in the same chat; then, on
the normalized content, first match wins among exact (react ✅, send
"✅ Correct!", `endQuiz('answered')`), mutual containment (react ✨),
`isCloseMatch` (react 🔍), otherwise nothing. -/
def checkAnswer (st : Option QuizSession) (chatId messageContent : String)
    (messageKey : MessageKey) : Option QuizSession × List Effect :=
  match st with
  | none => (none, [])
  | some q =>
    if q.chatId ≠ chatId then
      (some q, [])
    else
      let userAnswer := normalize messageContent
      let correctAnswer := q.correctAnswer
      if userAnswer = correctAnswer then
        let e := endQuiz (some q) .answered
        (e.1, .sendReact chatId "✅" messageKey ::
              .sendMessage chatId "✅ Correct!" :: e.2)
      else if strIncludes userAnswer correctAnswer ||
              strIncludes correctAnswer userAnswer then
        (some q, [.sendReact chatId "✨" messageKey])
      else if isCloseMatch userAnswer correctAnswer then
        (some q, [.sendReact chatId "🔍" messageKey])
      else
        (some q, [])

/-- kotaete.ts `getQuiz()`: read-only snapshot of the current session
(values are immutable here, so the copy is the identity). -/
def getQuiz (st : Option QuizSession) : Option QuizSession :=
  st

/-- kotaete.ts `isQuizActive()`: `currentQuiz !== null`. -/
def isQuizActive (st : Option QuizSession) : Bool :=
  st.isSome

/-! ## Identity resolution and mention filtering (whatsapp.ts)

`resolveAndSanitizePhoneNumber(jid)` consults the signal repository's
LID directory when `jid` ends in `"@lid"`; the directory is embedded as
`lidLookup : String → Option String` (`none` covers both a missing
repository and a failed `getPNForLID` lookup). It then strips the device
suffix matching the regex `:\d+@s\.whatsapp\.net$` (leftmost match, as
JavaScript `replace` finds it) and afterwards removes the first
occurrence of the literal `"@s.whatsapp.net"`.

`isUserMentioned(mentions, userJid)` resolves the user's own jid, then
each mention in order, returning at the first match. To observe the
resolution calls, the embedding also returns the trace of jids passed to
`resolveAndSanitizePhoneNumber`, in call order. -/

/-- Model of JavaScript `s.endsWith(suffix)` on character lists. -/
def endsWithL (s suffix : List Char) : Bool :=
  suffix.reverse.isPrefixOf s.reverse

/-- The characters of `"@s.whatsapp.net"`. -/
def waSuffix : List Char :=
  "@s.whatsapp.net".data

/-- Does the whole list match the regex `:\d+@s\.whatsapp\.net$`
starting at its head? (`\d+` is forced to be the maximal digit run,
since the literal that follows starts with a non-digit.) -/
def deviceSuffix : List Char → Bool
  | [] => false
  | c :: rest =>
    c = ':' && !(rest.takeWhile Char.isDigit).isEmpty &&
      rest.dropWhile Char.isDigit == waSuffix

/-- `s.replace(/:\d+@s\.whatsapp\.net$/, '')`: drop the suffix at the
leftmost position where the remainder of the string matches the
pattern; the match necessarily extends to the end of the string. -/
def stripDevice : List Char → List Char
  | [] => []
  | c :: rest => if deviceSuffix (c :: rest) then [] else c :: stripDevice rest

/-- `s.replace('@s.whatsapp.net', '')`: remove the first occurrence of
the literal pattern, if any. -/
def removeFirst (pat : List Char) : List Char → List Char
  | [] => []
  | c :: rest =>
    if pat.isPrefixOf (c :: rest) then (c :: rest).drop pat.length
    else c :: removeFirst pat rest

/-- whatsapp.ts `resolveAndSanitizePhoneNumber(jid)`: resolve a `@lid`
alias through the directory (falling back to `jid` when the lookup
yields nothing), then strip the device suffix and the transport
suffix. -/
def resolveAndSanitizePhoneNumber (lidLookup : String → Option String)
    (jid : String) : String :=
  let resolved :=
    if endsWithL jid.data "@lid".data then
      match lidLookup jid with
      | some pn => pn
      | none => jid
    else jid
  ⟨removeFirst waSuffix (stripDevice resolved.data)⟩

/-- The loop of `isUserMentioned`: resolve each mention in order,
stopping at the first one whose canonical form equals `userPn`. Returns
the verdict and the mentions that were resolved, in order. -/
def mentionScan (lidLookup : String → Option String) (userPn : String) :
    List String → Bool × List String
  | [] => (false, [])
  | mention :: rest =>
    if resolveAndSanitizePhoneNumber lidLookup mention = userPn then
      (true, [mention])
    else
      let r := mentionScan lidLookup userPn rest
      (r.1, mention :: r.2)

/-- whatsapp.ts `isUserMentioned(mentions, userJid)`: resolve the user's
jid first, then scan the mention list. The second component is the full
trace of arguments passed to `resolveAndSanitizePhoneNumber`. -/
def isUserMentioned (lidLookup : String → Option String)
    (mentions : List String) (userJid : String) : Bool × List String :=
  let userPn := resolveAndSanitizePhoneNumber lidLookup userJid
  let r := mentionScan lidLookup userPn mentions
  (r.1, userJid :: r.2)

/-! ## Helper lemmas -/

/-- Column 0 of the DP table holds the row index. -/
lemma dpRow_zero_right (s1 s2 : List Char) (i : Nat) : dpRow s1 s2 i 0 = i := by
  cases i <;> rfl

/-- Unfolding of the interior DP cell `dp[i+1][j+1]`. -/
lemma dpRow_succ_succ (s1 s2 : List Char) (i j : Nat) :
    dpRow s1 s2 (i + 1) (j + 1) =
      if s1.getD i default = s2.getD j default then dpRow s1 s2 i j
      else 1 + min (dpRow s1 s2 i (j + 1))
            (min (dpRow s1 s2 (i + 1) j) (dpRow s1 s2 i j)) := by
  rfl

/-- The DP table of the swapped argument pair is the transpose. -/
lemma dpRow_symm_aux :
    ∀ (n : Nat) (s1 s2 : List Char) (i j : Nat), i + j ≤ n →
      dpRow s1 s2 i j = dpRow s2 s1 j i := by
  intro n
  induction n with
  | zero =>
    intro s1 s2 i j h
    have hi : i = 0 := by omega
    have hj : j = 0 := by omega
    subst hi; subst hj; rfl
  | succ n ih =>
    intro s1 s2 i j h
    match i, j with
    | 0, j => rw [dpRow_zero_right]; rfl
    | i + 1, 0 => rw [dpRow_zero_right]; rfl
    | i + 1, j + 1 =>
      rw [dpRow_succ_succ, dpRow_succ_succ]
      rw [ih s1 s2 i (j + 1) (by omega), ih s1 s2 (i + 1) j (by omega),
        ih s1 s2 i j (by omega)]
      by_cases hc : s1.getD i default = s2.getD j default
      · rw [if_pos hc, if_pos hc.symm]
      · rw [if_neg hc, if_neg (fun hh => hc hh.symm)]
        omega

/-- `isCloseMatch` holds exactly on the length-of-candidate-driven
threshold: distance ≤ 2 for candidates of length ≤ 10, otherwise
distance ≤ max(3, ⌊length/10⌋). -/
lemma isCloseMatch_iff (answer1 answer2 : String) :
    isCloseMatch answer1 answer2 = true ↔
      ((answer1.data.length ≤ 10 ∧ levenshteinDistance answer1 answer2 ≤ 2) ∨
       (10 < answer1.data.length ∧
         levenshteinDistance answer1 answer2 ≤
           max 3 (answer1.data.length / 10))) := by
  unfold isCloseMatch
  by_cases hL : answer1.data.length ≤ 10 <;>
    by_cases hd : levenshteinDistance answer1 answer2 ≤ 2 <;>
      simp [hL, hd]

/-- The mention loop returns the verdict of a short-circuiting scan:
the verdict is whether some entry resolves to `userPn`, and the trace
covers exactly the entries up to and including the first match (all of
them when none matches). -/
lemma mentionScan_spec (lidLookup : String → Option String) (userPn : String)
    (mentions : List String) :
    mentionScan lidLookup userPn mentions =
      (mentions.any
         (fun m => decide (resolveAndSanitizePhoneNumber lidLookup m = userPn)),
       mentions.take
         (mentions.findIdx
            (fun m => decide (resolveAndSanitizePhoneNumber lidLookup m = userPn))
          + 1)) := by
  induction mentions with
  | nil => rfl
  | cons m rest ih =>
    by_cases hm : resolveAndSanitizePhoneNumber lidLookup m = userPn
    · simp [mentionScan, hm, List.findIdx_cons]
    · simp [mentionScan, hm, List.findIdx_cons, ih]

/-- A decimal digit is neither `':'` nor `'@'`. -/
lemma digit_ne_special (c : Char) (h : c.isDigit = true) : c ≠ ':' ∧ c ≠ '@' := by
  constructor <;> rintro rfl <;> exact absurd h (by decide)

/-- Appending the transport suffix never creates an `"@lid"` ending. -/
lemma endsWithL_append_waSuffix_lid (l : List Char) :
    endsWithL (l ++ waSuffix) "@lid".data = false := by
  unfold endsWithL
  rw [List.reverse_append]
  have h1 : waSuffix.reverse =
      't' :: 'e' :: 'n' :: '.' :: 'p' :: 'p' :: 'a' :: 's' :: 't' :: 'a' ::
        'h' :: 'w' :: '.' :: 's' :: '@' :: [] := by decide
  have h2 : "@lid".data.reverse = 'd' :: 'i' :: 'l' :: '@' :: [] := by decide
  rw [h1, h2]
  rfl

/-- `stripDevice` passes over characters that cannot start a device
suffix match. -/
lemma stripDevice_append (ds tail : List Char) (h : ∀ c ∈ ds, c ≠ ':') :
    stripDevice (ds ++ tail) = ds ++ stripDevice tail := by
  induction ds with
  | nil => rfl
  | cons c rest ih =>
    have hc : c ≠ ':' := h c (by simp)
    simp [stripDevice, deviceSuffix, hc, ih fun x hx => h x (by simp [hx])]

/-- Over an all-digit run followed by the transport suffix, `takeWhile
isDigit` takes exactly the run. -/
lemma takeWhile_digits_append (dev : List Char) (h : dev.all Char.isDigit = true) :
    (dev ++ waSuffix).takeWhile Char.isDigit = dev := by
  induction dev with
  | nil => decide
  | cons c rest ih =>
    simp only [List.all_cons, Bool.and_eq_true] at h
    simp [List.takeWhile_cons, h.1, ih h.2]

/-- Over an all-digit run followed by the transport suffix, `dropWhile
isDigit` leaves exactly the suffix. -/
lemma dropWhile_digits_append (dev : List Char) (h : dev.all Char.isDigit = true) :
    (dev ++ waSuffix).dropWhile Char.isDigit = waSuffix := by
  induction dev with
  | nil => decide
  | cons c rest ih =>
    simp only [List.all_cons, Bool.and_eq_true] at h
    simp [List.dropWhile_cons, h.1, ih h.2]

/-- A colon followed by a nonempty digit run and the transport suffix is
a device-suffix match. -/
lemma deviceSuffix_colon (dev : List Char) (h : dev.all Char.isDigit = true)
    (hne : dev ≠ []) :
    deviceSuffix (':' :: (dev ++ waSuffix)) = true := by
  simp [deviceSuffix, takeWhile_digits_append dev h, dropWhile_digits_append dev h, hne]

/-- `removeFirst` leaves a string without `'@'` untouched (the pattern
starts with `'@'`). -/
lemma removeFirst_no_at (l : List Char) (h : ∀ c ∈ l, c ≠ '@') :
    removeFirst waSuffix l = l := by
  induction l with
  | nil => rfl
  | cons c rest ih =>
    have hc : c ≠ '@' := h c (by simp)
    have hpre : waSuffix.isPrefixOf (c :: rest) = false := by
      have hw : waSuffix = '@' :: "s.whatsapp.net".data := by decide
      rw [hw]
      simp [List.isPrefixOf, Ne.symm hc]
    simp [removeFirst, hpre, ih fun x hx => h x (by simp [hx])]

/-- `removeFirst` removes the transport suffix appended after an
`'@'`-free prefix. -/
lemma removeFirst_append_waSuffix (ds : List Char) (h : ∀ c ∈ ds, c ≠ '@') :
    removeFirst waSuffix (ds ++ waSuffix) = ds := by
  induction ds with
  | nil => decide
  | cons c rest ih =>
    have hc : c ≠ '@' := h c (by simp)
    have hpre : waSuffix.isPrefixOf (c :: (rest ++ waSuffix)) = false := by
      have hw : waSuffix = '@' :: "s.whatsapp.net".data := by decide
      rw [hw]
      simp [List.isPrefixOf, Ne.symm hc]
    simp [removeFirst, hpre, ih fun x hx => h x (by simp [hx])]

/-! ## Claim theorems -/

/-- C1: `classify` evaluates in strict order with first match winning:
normalize both strings (lower-case, trim); exact iff the normalized
strings are equal; partial iff either normalized string contains the
other; close iff the Levenshtein distance `d` between the normalized
strings satisfies `d ≤ 2` when the candidate's length `L` is at most 10,
or `d ≤ max 3 ⌊L/10⌋` when `L > 10`, with `L` always the candidate's
length; otherwise none. -/
theorem classify_strict_order_characterization (candidate correct : String) :
    (classify candidate correct = MatchResult.exact ↔
       normalize candidate = normalize correct)
  ∧ (classify candidate correct = MatchResult.partialMatch ↔
       normalize candidate ≠ normalize correct ∧
       (strIncludes (normalize candidate) (normalize correct) = true ∨
        strIncludes (normalize correct) (normalize candidate) = true))
  ∧ (classify candidate correct = MatchResult.close ↔
       normalize candidate ≠ normalize correct ∧
       ¬(strIncludes (normalize candidate) (normalize correct) = true ∨
         strIncludes (normalize correct) (normalize candidate) = true) ∧
       (((normalize candidate).data.length ≤ 10 ∧
           levenshteinDistance (normalize candidate) (normalize correct) ≤ 2) ∨
        (10 < (normalize candidate).data.length ∧
           levenshteinDistance (normalize candidate) (normalize correct) ≤
             max 3 ((normalize candidate).data.length / 10))))
  ∧ (classify candidate correct = MatchResult.noMatch ↔
       normalize candidate ≠ normalize correct ∧
       ¬(strIncludes (normalize candidate) (normalize correct) = true ∨
         strIncludes (normalize correct) (normalize candidate) = true) ∧
       ¬(((normalize candidate).data.length ≤ 10 ∧
            levenshteinDistance (normalize candidate) (normalize correct) ≤ 2) ∨
         (10 < (normalize candidate).data.length ∧
            levenshteinDistance (normalize candidate) (normalize correct) ≤
              max 3 ((normalize candidate).data.length / 10)))) := by
  have hclose := isCloseMatch_iff (normalize candidate) (normalize correct)
  by_cases h1 : normalize candidate = normalize correct
  · simp [classify, h1]
  · by_cases h2 : (strIncludes (normalize candidate) (normalize correct) ||
        strIncludes (normalize correct) (normalize candidate)) = true
    · simp only [Bool.or_eq_true] at h2
      simp [classify, h1, h2, Bool.or_eq_true]
    · simp only [Bool.or_eq_true] at h2
      by_cases h3 : isCloseMatch (normalize candidate) (normalize correct) = true
      · have hc := hclose.mp h3
        simp at hc
        simp [classify, h1, h2, h3, Bool.or_eq_true]
        omega
      · have hc : ¬(((normalize candidate).data.length ≤ 10 ∧
            levenshteinDistance (normalize candidate) (normalize correct) ≤ 2) ∨
          (10 < (normalize candidate).data.length ∧
            levenshteinDistance (normalize candidate) (normalize correct) ≤
              max 3 ((normalize candidate).data.length / 10))) :=
          fun hco => h3 (hclose.mpr hco)
        simp at hc
        simp [classify, h1, h2, h3, Bool.or_eq_true]
        omega

/-- C2 counterexample: `classify "Pariss" "Paris"` is `partialMatch`
(the normalized candidate `"pariss"` contains `"paris"`, and the partial
branch precedes the close branch), not `close` as the claim states. -/
theorem classify_pariss_paris_counterexample :
    classify "Pariss" "Paris" = MatchResult.partialMatch ∧
    classify "Pariss" "Paris" ≠ MatchResult.close := by
  decide

/-- C2 amended: the five concrete classifications with the containment
shadowing accounted for: `"Pariss"` and `"Pari"` classify as partial
(mutual containment fires before the close branch); the remaining three
cases hold as stated. -/
theorem classify_concrete_cases_amended :
    classify "Pariss" "Paris" = MatchResult.partialMatch ∧
    classify "Pari" "Paris" = MatchResult.partialMatch ∧
    classify "The answer is Paris" "Paris" = MatchResult.partialMatch ∧
    classify "Paris" "Paris" = MatchResult.exact ∧
    classify "London" "Paris" = MatchResult.noMatch := by
  decide

/-- C3: starting a quiz while one is active fails with the "quiz already
active" error, sends no message, fires no notification, and leaves the
existing session unchanged, whatever the arguments. -/
theorem startQuiz_already_active (q : QuizSession) (sendErr : Option String)
    (chatId question correctAnswer : String) (replyToMessageId : Option String)
    (now : Nat) :
    startQuiz (some q) sendErr chatId question correctAnswer replyToMessageId now =
      ⟨some q, [], some "A quiz is already active"⟩ :=
  rfl

/-- C4: after a successful `startQuiz`, a `checkAnswer` in the same chat
whose content normalizes to the normalized answer sends, in order, the
correct-reaction, the confirmation message, and the end notification
with reason `answered`, and the quiz is no longer active. -/
theorem startQuiz_then_exact_answer (chatId question correctAnswer content : String)
    (replyToMessageId : Option String) (now : Nat) (key : MessageKey)
    (h : normalize content = normalize correctAnswer) :
    checkAnswer (startQuiz none none chatId question correctAnswer
        replyToMessageId now).state chatId content key =
      (none, [Effect.sendReact chatId "✅" key,
              Effect.sendMessage chatId "✅ Correct!",
              Effect.quizEnd EndReason.answered])
  ∧ isQuizActive (checkAnswer (startQuiz none none chatId question correctAnswer
        replyToMessageId now).state chatId content key).1 = false := by
  constructor
  · simp [startQuiz, checkAnswer, endQuiz, h]
  · simp [startQuiz, checkAnswer, endQuiz, isQuizActive, h]

/-- C4 witness: the end-to-end run `startQuiz "G1" "Q" "4"` followed by
`checkAnswer "G1" "4"`. -/
theorem startQuiz_then_exact_answer_witness :
    normalize "4" = normalize "4" ∧
    checkAnswer (startQuiz none none "G1" "Q" "4" none 0).state "G1" "4"
        ⟨"m1", "G1"⟩ =
      (none, [Effect.sendReact "G1" "✅" ⟨"m1", "G1"⟩,
              Effect.sendMessage "G1" "✅ Correct!",
              Effect.quizEnd EndReason.answered]) :=
  ⟨rfl, (startQuiz_then_exact_answer "G1" "Q" "4" "4" none 0 ⟨"m1", "G1"⟩ rfl).1⟩

/-- C5 counterexample: with an empty mention list, `isUserMentioned`
still resolves the bot's own address — the resolution trace is
`["123"]`, not empty — so "returns false without performing any
resolution calls" fails. -/
theorem isUserMentioned_empty_counterexample :
    isUserMentioned (fun _ => none) [] "123" = (false, ["123"]) ∧
    (isUserMentioned (fun _ => none) [] "123").2 ≠ [] := by
  decide

/-- C5 amended: `isUserMentioned` resolves the bot address once (head of
the trace), then resolves each mention-list entry in order,
short-circuiting at the first canonical match; with an empty mention
list it returns false after that single bot-address resolution and
resolves no mention entries. -/
theorem isUserMentioned_spec (lidLookup : String → Option String)
    (mentions : List String) (userJid : String) :
    (isUserMentioned lidLookup mentions userJid).1 =
      mentions.any (fun m =>
        decide (resolveAndSanitizePhoneNumber lidLookup m =
          resolveAndSanitizePhoneNumber lidLookup userJid))
  ∧ (isUserMentioned lidLookup mentions userJid).2 =
      userJid :: mentions.take
        (mentions.findIdx (fun m =>
          decide (resolveAndSanitizePhoneNumber lidLookup m =
            resolveAndSanitizePhoneNumber lidLookup userJid)) + 1) := by
  simp only [isUserMentioned]
  rw [mentionScan_spec]
  exact ⟨rfl, rfl⟩

/-- C6: a `checkAnswer` while no quiz is active, or whose chat differs
from the active session's chat, changes nothing and produces no
effect. -/
theorem checkAnswer_noop (st : Option QuizSession) (chatId content : String)
    (key : MessageKey)
    (h : st = none ∨ ∃ q, st = some q ∧ q.chatId ≠ chatId) :
    checkAnswer st chatId content key = (st, []) := by
  rcases h with rfl | ⟨q, rfl, hq⟩
  · rfl
  · simp [checkAnswer, hq]

/-- C6 witness: a message arriving while no quiz is active. -/
theorem checkAnswer_noop_witness :
    ((none : Option QuizSession) = none ∨
      ∃ q, (none : Option QuizSession) = some q ∧ q.chatId ≠ "G1") ∧
    checkAnswer none "G1" "hello" ⟨"m1", "G1"⟩ = (none, []) :=
  ⟨Or.inl rfl, checkAnswer_noop none "G1" "hello" ⟨"m1", "G1"⟩ (Or.inl rfl)⟩

/-- C7: for every reason, `endQuiz` on an active session clears it and
fires exactly the one end notification tagged with that reason, and
`endQuiz` while idle is a no-op with no notification. -/
theorem endQuiz_spec (reason : EndReason) :
    (∀ q : QuizSession, endQuiz (some q) reason = (none, [Effect.quizEnd reason]))
  ∧ endQuiz none reason = (none, []) :=
  ⟨fun _ => rfl, rfl⟩

/-- C8: the dynamic-programming Levenshtein distance is symmetric. -/
theorem levenshteinDistance_symm (a b : String) :
    levenshteinDistance a b = levenshteinDistance b a := by
  unfold levenshteinDistance
  exact dpRow_symm_aux (a.data.length + b.data.length) a.data b.data
    a.data.length b.data.length le_rfl

/-- C9 counterexample: on a linked-identity address with no directory
mapping, the fallback keeps the original address unmodified, and the
result `"123@lid"` is not digits-only. -/
theorem resolve_lid_fallback_counterexample :
    resolveAndSanitizePhoneNumber (fun _ => none) "123@lid" = "123@lid" ∧
    ¬ "123@lid".data.all Char.isDigit = true := by
  decide

/-- C9 amended: `resolveAndSanitizePhoneNumber` strips the transport
suffix and the optional device-id segment, yielding the digits, for
addresses of the canonical shape digits(+":"+device-id)+suffix; on
lookup failure the original address is used unmodified (so a `"@lid"`
address that fails to resolve is returned as is, not digits-only). -/
theorem resolve_canonical_amended (lidLookup : String → Option String)
    (ds dev : List Char) (hds : ds.all Char.isDigit = true)
    (hdev : dev.all Char.isDigit = true) (hne : dev ≠ []) :
    resolveAndSanitizePhoneNumber lidLookup ⟨ds ++ ':' :: dev ++ waSuffix⟩ = ⟨ds⟩
  ∧ resolveAndSanitizePhoneNumber lidLookup ⟨ds ++ waSuffix⟩ = ⟨ds⟩
  ∧ (∀ jid, lidLookup jid = none →
      resolveAndSanitizePhoneNumber lidLookup jid =
        ⟨removeFirst waSuffix (stripDevice jid.data)⟩) := by
  have hdig : ∀ c ∈ ds, c.isDigit = true := fun c hc => by
    have := List.all_eq_true.mp hds c hc
    simpa using this
  have hcolon : ∀ c ∈ ds, c ≠ ':' := fun c hc => (digit_ne_special c (hdig c hc)).1
  have hat : ∀ c ∈ ds, c ≠ '@' := fun c hc => (digit_ne_special c (hdig c hc)).2
  refine ⟨?_, ?_, ?_⟩
  · unfold resolveAndSanitizePhoneNumber
    simp only [List.cons_append, List.append_assoc]
    have he : endsWithL (ds ++ ':' :: (dev ++ waSuffix)) "@lid".data = false := by
      have h := endsWithL_append_waSuffix_lid (ds ++ ':' :: dev)
      simpa using h
    simp only [he, Bool.false_eq_true, if_false]
    have hd : stripDevice (':' :: (dev ++ waSuffix)) = [] := by
      simp [stripDevice, deviceSuffix_colon dev hdev hne]
    rw [stripDevice_append ds (':' :: (dev ++ waSuffix)) hcolon, hd,
      List.append_nil, removeFirst_no_at ds hat]
  · unfold resolveAndSanitizePhoneNumber
    have he : endsWithL (ds ++ waSuffix) "@lid".data = false :=
      endsWithL_append_waSuffix_lid ds
    simp only [he, Bool.false_eq_true, if_false]
    rw [stripDevice_append ds waSuffix hcolon]
    have hw : stripDevice waSuffix = waSuffix := by decide
    rw [hw, removeFirst_append_waSuffix ds hat]
  · intro jid hjid
    unfold resolveAndSanitizePhoneNumber
    by_cases he : endsWithL jid.data "@lid".data = true <;> simp [he, hjid]

/-- C9 witness: the canonical device-suffixed address
`"123:5@s.whatsapp.net"` resolves to `"123"`. -/
theorem resolve_canonical_amended_witness :
    "123".data.all Char.isDigit = true ∧
    resolveAndSanitizePhoneNumber (fun _ => none)
        ⟨"123".data ++ ':' :: "5".data ++ waSuffix⟩ = ⟨"123".data⟩ :=
  ⟨by decide,
   (resolve_canonical_amended (fun _ => none) "123".data "5".data
      (by decide) (by decide) (by decide)).1⟩

/-- C10: if the transport `sendMessage` inside `startQuiz` fails while
the engine is idle, the error propagates unchanged, no session is
created (the engine stays idle with no snapshot), and no notification
fires. -/
theorem startQuiz_send_failure_atomic (e chatId question correctAnswer : String)
    (replyToMessageId : Option String) (now : Nat) :
    startQuiz none (some e) chatId question correctAnswer replyToMessageId now =
      ⟨none, [], some e⟩
  ∧ getQuiz (startQuiz none (some e) chatId question correctAnswer
      replyToMessageId now).state = none
  ∧ isQuizActive (startQuiz none (some e) chatId question correctAnswer
      replyToMessageId now).state = false :=
  ⟨rfl, rfl, rfl⟩

end Nanobot
